import Mathlib

/-!
Verification of the Nakshatra stock-analyst core (`app.py`).

The embedding models the two logical components of `NakshatraStockAnalyzer`:
`simulate_nakshatra_data` (a pure function of the calendar date) and
`generate_prediction` (a pure function of an optional close-price series and
the simulated signal).  Machine floats are idealised as exact rationals for
the price arithmetic and as reals where `np.sin` / `np.pi` enter; a pandas
DataFrame is modelled by its list of close prices, the only column the
scoring code reads, with `None` modelled as `Option.none`.
-/

namespace NakshatraApp

/-- One intraday transition event, the dicts built at app.py lines 71/73. -/
structure Transition where
  time : String
  fromLabel : String
  toLabel : String
deriving DecidableEq

/-- The record returned by `simulate_nakshatra_data` (app.py lines 75-80). -/
structure NakshatraData where
  current_nakshatra : String
  nakshatra_index : Nat
  transitions : List Transition
  moon_phase : String
deriving DecidableEq

/-- A key-time card built at app.py lines 116-120. -/
structure KeyTime where
  time : String
  expected_impact : String
  period : String
deriving DecidableEq

/-- The prediction record returned by `generate_prediction`. -/
structure Prediction where
  direction : String
  confidence : ℝ
  key_times : List KeyTime
  reasoning : String

/-- The fixed ordered list of 27 nakshatra names (app.py lines 36-42). -/
def nakshatras : List String :=
  ["Ashwini", "Bharani", "Krittika", "Rohini", "Mrigashira", "Ardra", "Punarvasu",
   "Pushya", "Ashlesha", "Magha", "Purva Phalguni", "Uttara Phalguni", "Hasta",
   "Chitra", "Swati", "Vishakha", "Anuradha", "Jyeshtha", "Mula", "Purva Ashadha",
   "Uttara Ashadha", "Shravana", "Dhanishta", "Shatabhisha", "Purva Bhadrapada",
   "Uttara Bhadrapada", "Revati"]

/-- A calendar date, as parsed by `datetime.strptime(str(date)[:10], '%Y-%m-%d')`. -/
structure Date where
  year : Nat
  month : Nat
  day : Nat
deriving DecidableEq

/-- Gregorian leap-year rule used by `datetime`. -/
def isLeapYear (y : Nat) : Bool :=
  (y % 4 == 0 && y % 100 != 0) || (y % 400 == 0)

/-- Month lengths of a Gregorian year. -/
def monthLengths (leap : Bool) : List Nat :=
  [31, if leap then 29 else 28, 31, 30, 31, 30, 31, 31, 30, 31, 30, 31]

/-- `date_obj.timetuple().tm_yday`: the ordinal day of the year, 1-based. -/
def dayOfYear (d : Date) : Nat :=
  ((monthLengths (isLeapYear d.year)).take (d.month - 1)).sum + d.day

/-- `simulate_nakshatra_data` (app.py lines 63-80): derives the cyclic index,
the current label, the intraday transitions and the moon phase from the
date's day-of-year alone.  Python's raising list indexing is rendered total
with `getD`; the index is always `< 27` so the default is never consulted. -/
def simulate_nakshatra_data (date : Date) : NakshatraData :=
  let day_of_year := dayOfYear date
  let nakshatra_index := day_of_year % 27
  let transitions :=
    (if day_of_year % 3 == 0 then
      [Transition.mk "10:30" (nakshatras.getD nakshatra_index "")
        (nakshatras.getD ((nakshatra_index + 1) % 27) "")]
     else []) ++
    (if day_of_year % 4 == 0 then
      [Transition.mk "14:15" (nakshatras.getD ((nakshatra_index + 1) % 27) "")
        (nakshatras.getD ((nakshatra_index + 2) % 27) "")]
     else [])
  NakshatraData.mk (nakshatras.getD nakshatra_index "") nakshatra_index transitions
    (if day_of_year % 30 < 15 then "Waxing" else "Waning")

/-- `Close.pct_change(k).dropna()` on a clean series (app.py lines 88/92):
the fractional change over a `k`-row lookback, defined from row `k` on.
The leading `k` NaN rows that `dropna` removes never enter the list. -/
def pct_change (k : Nat) (closes : List ℚ) : List ℚ :=
  (List.range (closes.length - k)).map
    (fun j => (closes.getD (j + k) 0 - closes.getD j 0) / closes.getD j 0)

/-- The recent-trend selection of app.py lines 87-95: the last 5-row change
when any exists, else the last 1-row change, else `0.0`.  `iloc[-1]` on a
list known non-empty is rendered total as `getLast?.getD 0`. -/
def recent_trend (closes : List ℚ) : ℚ :=
  let pct5 := pct_change 5 closes
  if 0 < pct5.length then (pct5.getLast?).getD 0
  else
    let pct1 := pct_change 1 closes
    if 0 < pct1.length then (pct1.getLast?).getD 0 else 0

/-- `np.sin(nakshatra_index * 2 * np.pi / 27)` (app.py line 97). -/
noncomputable def nakshatra_factor (idx : Nat) : ℝ :=
  Real.sin ((idx : ℝ) * 2 * Real.pi / 27)

/-- `len(nakshatra_data['transitions']) * 0.12` (app.py line 98). -/
def transition_factor (nd : NakshatraData) : ℚ :=
  (nd.transitions.length : ℚ) * 0.12

/-- The weighted sum of app.py line 99. -/
noncomputable def combined_score (closes : List ℚ) (nd : NakshatraData) : ℝ :=
  (recent_trend closes : ℝ) * 0.45 + nakshatra_factor nd.nakshatra_index * 0.28 +
    (transition_factor nd : ℝ) * 0.27

open Classical in
/-- The threshold cascade of app.py lines 102-107. -/
noncomputable def directionOf (cs : ℝ) : String :=
  if cs > 0.015 then "BULLISH 📈"
  else if cs < -0.015 then "BEARISH 📉"
  else "NEUTRAL ➡️"

/-- `np.clip(x, lo, hi)` on scalars: `hi` wins below, then `lo` is enforced. -/
noncomputable def np_clip (x lo hi : ℝ) : ℝ := min hi (max lo x)

/-- The confidence of app.py lines 110-111. -/
noncomputable def confidenceOf (cs : ℝ) : ℝ := np_clip (|cs| * 1000 + 50) 50 90

/-- The key-time cards built by the loop of app.py lines 113-120; the impact
test reads the signal's base `nakshatra_index` on every iteration. -/
def key_times_of (nd : NakshatraData) : List KeyTime :=
  nd.transitions.map (fun t =>
    KeyTime.mk t.time
      (if nd.nakshatra_index % 3 == 0 then "Volatile" else "Moderate")
      (t.fromLabel ++ " → " ++ t.toLabel))

/-- Round a rational to the nearest integer, ties to even: the rounding of
Python's fixed-point float formatting, idealised to the exact rational. -/
def roundHalfEven (q : ℚ) : ℤ :=
  let f := ⌊q⌋
  let r := q - (f : ℚ)
  if r < 1 / 2 then f
  else if 1 / 2 < r then f + 1
  else if f % 2 = 0 then f else f + 1

/-- Left-pad a two-digit fractional part with a zero. -/
def pad2 (n : Nat) : String := if n < 10 then "0" ++ toString n else toString n

/-- Python's format spec `.2%`: scale by 100 and print with two decimals. -/
def formatPercent (q : ℚ) : String :=
  let scaled := roundHalfEven (q * 10000)
  let sign := if scaled < 0 then "-" else ""
  let a := scaled.natAbs
  sign ++ toString (a / 100) ++ "." ++ pad2 (a % 100) ++ "%"

/-- The reasoning f-string of app.py line 122. -/
def reasoningOf (closes : List ℚ) (nd : NakshatraData) : String :=
  "Recent trend: " ++ formatPercent (recent_trend closes) ++
    ", Nakshatra: " ++ nd.current_nakshatra ++
    ", Transitions: " ++ toString nd.transitions.length

/-- The early return of app.py line 84. -/
def insufficient_prediction : Prediction :=
  Prediction.mk "NEUTRAL ➡️" 50 [] "Insufficient data"

/-- The full scoring branch, app.py lines 86-128. -/
noncomputable def full_prediction (closes : List ℚ) (nd : NakshatraData) : Prediction :=
  let cs := combined_score closes nd
  Prediction.mk (directionOf cs) (confidenceOf cs) (key_times_of nd) (reasoningOf closes nd)

/-- `generate_prediction` (app.py lines 82-128): `None` and series shorter
than two rows short-circuit to the insufficient-data record. -/
noncomputable def generate_prediction (stock_data : Option (List ℚ))
    (nd : NakshatraData) : Prediction :=
  match stock_data with
  | none => insufficient_prediction
  | some closes =>
    if closes.length < 2 then insufficient_prediction
    else full_prediction closes nd

/-- A fixed transitionless signal used to instantiate witnesses. -/
def sig0 : NakshatraData := NakshatraData.mk "Ashwini" 0 [] "Waxing"

/-- A signal is well-formed: in-range index, label and transition labels
drawn from the 27-name table, at most two transitions, binary moon phase. -/
def valid_signal (nd : NakshatraData) : Prop :=
  nd.nakshatra_index < 27 ∧
  nd.current_nakshatra ∈ nakshatras ∧
  nd.transitions.length ≤ 2 ∧
  (∀ t ∈ nd.transitions, t.fromLabel ∈ nakshatras ∧ t.toLabel ∈ nakshatras) ∧
  (nd.moon_phase = "Waxing" ∨ nd.moon_phase = "Waning")

/-! ### Structural helper lemmas -/

/-- A series of at least two rows takes the full scoring branch. -/
lemma generate_prediction_of_two_le (closes : List ℚ) (nd : NakshatraData)
    (h : 2 ≤ closes.length) :
    generate_prediction (some closes) nd = full_prediction closes nd := by
  show (if closes.length < 2 then insufficient_prediction else full_prediction closes nd) =
    full_prediction closes nd
  rw [if_neg (by omega)]

/-- A series of fewer than two rows short-circuits. -/
lemma generate_prediction_of_lt_two (closes : List ℚ) (nd : NakshatraData)
    (h : closes.length < 2) :
    generate_prediction (some closes) nd = insufficient_prediction := by
  show (if closes.length < 2 then insufficient_prediction else full_prediction closes nd) =
    insufficient_prediction
  rw [if_pos h]

/-- Length of a `pct_change` series. -/
lemma pct_change_length (k : Nat) (closes : List ℚ) :
    (pct_change k closes).length = closes.length - k := by
  simp [pct_change]

/-- The last entry of a non-empty `pct_change` series is the change from
`k` rows before the end to the last row. -/
lemma pct_change_getLast (k : Nat) (closes : List ℚ) (h : k < closes.length) :
    ((pct_change k closes).getLast?).getD 0 =
      (closes.getD (closes.length - 1) 0 - closes.getD (closes.length - 1 - k) 0) /
        closes.getD (closes.length - 1 - k) 0 := by
  unfold pct_change
  rw [List.getLast?_eq_getElem?, List.getElem?_map]
  have hlen : ((List.range (closes.length - k)).map
      (fun j => (closes.getD (j + k) 0 - closes.getD j 0) / closes.getD j 0)).length =
      closes.length - k := by simp
  rw [hlen, List.getElem?_range (by omega)]
  have h1 : closes.length - k - 1 + k = closes.length - 1 := by omega
  have h2 : closes.length - k - 1 = closes.length - 1 - k := by omega
  simp only [Option.map_some', Option.getD_some, h1, h2]
  rw [show closes.length - 1 - k + k = closes.length - 1 by omega]

/-- The transitions of a simulated signal, with the Bool guards of the
source restated as propositional conditions on the day of year. -/
lemma simulate_transitions_eq (d : Date) :
    (simulate_nakshatra_data d).transitions =
      (if dayOfYear d % 3 = 0 then
        [Transition.mk "10:30" (nakshatras.getD (dayOfYear d % 27) "")
          (nakshatras.getD ((dayOfYear d % 27 + 1) % 27) "")] else []) ++
      (if dayOfYear d % 4 = 0 then
        [Transition.mk "14:15" (nakshatras.getD ((dayOfYear d % 27 + 1) % 27) "")
          (nakshatras.getD ((dayOfYear d % 27 + 2) % 27) "")] else []) := by
  show (if (dayOfYear d % 3 == 0) = true then _ else _) ++
      (if (dayOfYear d % 4 == 0) = true then _ else _) = _
  by_cases h3 : dayOfYear d % 3 = 0 <;> by_cases h4 : dayOfYear d % 4 = 0 <;>
    simp [h3, h4]

/-- An element drawn from the name table with an in-range index is one of
the 27 names. -/
lemma getD_mem_nakshatras (i : Nat) (h : i < 27) : nakshatras.getD i "" ∈ nakshatras := by
  have hl : i < nakshatras.length := by
    rw [show nakshatras.length = 27 from rfl]; exact h
  rw [List.getD_eq_getElem?_getD, List.getElem?_eq_getElem hl, Option.getD_some]
  exact List.getElem_mem hl

/-- The cyclic index reduces modulo 3 to the day of year modulo 3,
because 3 divides 27. -/
lemma index_mod_three (d : Date) :
    (simulate_nakshatra_data d).nakshatra_index % 3 = dayOfYear d % 3 := by
  show dayOfYear d % 27 % 3 = dayOfYear d % 3
  exact Nat.mod_mod_of_dvd _ (by norm_num)

/-! ### Claim theorems -/

/-- C1: if the price series is `None` or has fewer than 2 records, `score`
returns exactly the neutral 50-confidence "Insufficient data" record, and
this is the only short-circuit: with at least 2 records the full scoring
computation runs. -/
theorem score_insufficient_short_circuit :
    ∀ (sd : Option (List ℚ)) (nd : NakshatraData),
      ((sd = none ∨ ∃ closes, sd = some closes ∧ closes.length < 2) →
        generate_prediction sd nd =
          Prediction.mk "NEUTRAL ➡️" 50 [] "Insufficient data") ∧
      (∀ closes, sd = some closes → 2 ≤ closes.length →
        generate_prediction sd nd = full_prediction closes nd) := by
  intro sd nd
  constructor
  · rintro (rfl | ⟨closes, rfl, h⟩)
    · rfl
    · rw [generate_prediction_of_lt_two closes nd h]; rfl
  · rintro closes rfl h
    exact generate_prediction_of_two_le closes nd h

/-- C1 witness: the short-circuit at `none` and the full branch on a
two-row series, both at concrete inputs. -/
theorem score_insufficient_short_circuit_witness :
    generate_prediction none sig0 =
        Prediction.mk "NEUTRAL ➡️" 50 [] "Insufficient data" ∧
      generate_prediction (some [1, 1]) sig0 = full_prediction [1, 1] sig0 :=
  ⟨(score_insufficient_short_circuit none sig0).1 (Or.inl rfl),
   (score_insufficient_short_circuit (some [1, 1]) sig0).2 [1, 1] rfl (by decide)⟩

/-- C2: with at least 2 records, `combinedScore` is the stated weighted sum
and the returned direction is the step function of `combinedScore` with
breakpoints at -0.015 and +0.015, breakpoints inclusive mapping to NEUTRAL. -/
theorem combined_score_step_direction :
    ∀ (closes : List ℚ) (nd : NakshatraData), 2 ≤ closes.length →
      combined_score closes nd =
          (recent_trend closes : ℝ) * 0.45 +
            Real.sin ((nd.nakshatra_index : ℝ) * 2 * Real.pi / 27) * 0.28 +
            (nd.transitions.length : ℝ) * 0.12 * 0.27 ∧
      (combined_score closes nd > 0.015 →
        (generate_prediction (some closes) nd).direction = "BULLISH 📈") ∧
      (combined_score closes nd < -0.015 →
        (generate_prediction (some closes) nd).direction = "BEARISH 📉") ∧
      (-0.015 ≤ combined_score closes nd → combined_score closes nd ≤ 0.015 →
        (generate_prediction (some closes) nd).direction = "NEUTRAL ➡️") := by
  intro closes nd h
  have hdir : (generate_prediction (some closes) nd).direction =
      directionOf (combined_score closes nd) := by
    rw [generate_prediction_of_two_le closes nd h]; rfl
  refine ⟨?_, ?_, ?_, ?_⟩
  · unfold combined_score nakshatra_factor transition_factor
    push_cast
    ring
  · intro hgt
    rw [hdir]; unfold directionOf; rw [if_pos hgt]
  · intro hlt
    rw [hdir]; unfold directionOf
    rw [if_neg (by linarith), if_pos hlt]
  · intro h1 h2
    rw [hdir]; unfold directionOf
    rw [if_neg (by linarith), if_neg (by linarith)]

/-- C2 witness: the weighted-sum identity at a concrete two-row series and
the concrete transitionless signal. -/
theorem combined_score_step_direction_witness :
    combined_score [1, 1] sig0 =
      (recent_trend [1, 1] : ℝ) * 0.45 +
        Real.sin ((sig0.nakshatra_index : ℝ) * 2 * Real.pi / 27) * 0.28 +
        (sig0.transitions.length : ℝ) * 0.12 * 0.27 :=
  (combined_score_step_direction [1, 1] sig0 (by decide)).1

/-- C3: with at least 2 records the confidence is
`clamp(|combinedScore|*1000 + 50, 50, 90)`, and on every input (including
the insufficient-data branch) the confidence lies in [50, 90]. -/
theorem confidence_formula_and_range :
    ∀ (sd : Option (List ℚ)) (nd : NakshatraData),
      (50 ≤ (generate_prediction sd nd).confidence ∧
        (generate_prediction sd nd).confidence ≤ 90) ∧
      (∀ closes, sd = some closes → 2 ≤ closes.length →
        (generate_prediction sd nd).confidence =
          min 90 (max 50 (|combined_score closes nd| * 1000 + 50))) := by
  intro sd nd
  have hclip : ∀ x : ℝ, 50 ≤ np_clip x 50 90 ∧ np_clip x 50 90 ≤ 90 := by
    intro x
    unfold np_clip
    exact ⟨le_min (by norm_num) (le_max_left _ _), min_le_left _ _⟩
  constructor
  · match sd with
    | none =>
      constructor <;> norm_num [generate_prediction, insufficient_prediction]
    | some closes =>
      by_cases h : closes.length < 2
      · rw [generate_prediction_of_lt_two closes nd h]
        constructor <;> norm_num [insufficient_prediction]
      · rw [generate_prediction_of_two_le closes nd (by omega)]
        exact hclip _
  · rintro closes rfl h
    rw [generate_prediction_of_two_le closes nd h]
    rfl

/-- C3 witness: the clamp identity at a concrete two-row series. -/
theorem confidence_formula_and_range_witness :
    (generate_prediction (some [1, 1]) sig0).confidence =
      min 90 (max 50 (|combined_score [1, 1] sig0| * 1000 + 50)) :=
  (confidence_formula_and_range (some [1, 1]) sig0).2 [1, 1] rfl (by decide)

/-- C9: the direction returned by `score` is always one of the three
emoji-suffixed literals. -/
theorem direction_always_emoji_literal :
    ∀ (sd : Option (List ℚ)) (nd : NakshatraData),
      (generate_prediction sd nd).direction = "BULLISH 📈" ∨
      (generate_prediction sd nd).direction = "BEARISH 📉" ∨
      (generate_prediction sd nd).direction = "NEUTRAL ➡️" := by
  intro sd nd
  have hdir : ∀ cs : ℝ, directionOf cs = "BULLISH 📈" ∨
      directionOf cs = "BEARISH 📉" ∨ directionOf cs = "NEUTRAL ➡️" := by
    intro cs
    unfold directionOf
    split
    · exact Or.inl rfl
    split
    · exact Or.inr (Or.inl rfl)
    · exact Or.inr (Or.inr rfl)
  match sd with
  | none => exact Or.inr (Or.inr rfl)
  | some closes =>
    by_cases h : closes.length < 2
    · rw [generate_prediction_of_lt_two closes nd h]
      exact Or.inr (Or.inr rfl)
    · rw [generate_prediction_of_two_le closes nd (by omega)]
      exact hdir _

/-- C4: with at least 2 records and nonzero lagged closes, the recent trend
is the 5-period percentage change at the last row when at least 6 records
exist, and the 1-period percentage change at the last row otherwise. -/
theorem recent_trend_lookback :
    ∀ closes : List ℚ, 2 ≤ closes.length →
      closes.getD (closes.length - 6) 0 ≠ 0 →
      closes.getD (closes.length - 2) 0 ≠ 0 →
      (6 ≤ closes.length →
        recent_trend closes =
          (closes.getD (closes.length - 1) 0 - closes.getD (closes.length - 6) 0) /
            closes.getD (closes.length - 6) 0) ∧
      (closes.length ≤ 5 →
        recent_trend closes =
          (closes.getD (closes.length - 1) 0 - closes.getD (closes.length - 2) 0) /
            closes.getD (closes.length - 2) 0) := by
  intro closes h2 _ _
  constructor
  · intro h6
    unfold recent_trend
    rw [if_pos (by rw [pct_change_length]; omega)]
    have := pct_change_getLast 5 closes (by omega)
    rw [this]
    have : closes.length - 1 - 5 = closes.length - 6 := by omega
    rw [this]
  · intro h5
    unfold recent_trend
    rw [if_neg (by rw [pct_change_length]; omega)]
    rw [if_pos (by rw [pct_change_length]; omega)]
    have := pct_change_getLast 1 closes (by omega)
    rw [this]
    have : closes.length - 1 - 1 = closes.length - 2 := by omega
    rw [this]

/-- C4 witness: the 5-period lookback on a concrete six-row series. -/
theorem recent_trend_lookback_witness :
    recent_trend [100, 102, 101, 103, 105, 110] =
      (List.getD [100, 102, 101, 103, 105, 110] (6 - 1) 0 -
          List.getD [100, 102, 101, 103, 105, 110] (6 - 6) 0) /
        List.getD [100, 102, 101, 103, 105, 110] (6 - 6) 0 :=
  (recent_trend_lookback [100, 102, 101, 103, 105, 110]
    (by decide) (by decide) (by decide)).1 (by decide)

/-- C5: transitions are exactly the mod-3 gated 10:30 event followed by the
mod-4 gated 14:15 event, with the stated labels, so at most two events with
the 10:30 event first. -/
theorem simulate_transitions_mod_pairing :
    ∀ d : Date,
      (simulate_nakshatra_data d).transitions =
        (if dayOfYear d % 3 = 0 then
          [Transition.mk "10:30" (nakshatras.getD (dayOfYear d % 27) "")
            (nakshatras.getD ((dayOfYear d % 27 + 1) % 27) "")] else []) ++
        (if dayOfYear d % 4 = 0 then
          [Transition.mk "14:15" (nakshatras.getD ((dayOfYear d % 27 + 1) % 27) "")
            (nakshatras.getD ((dayOfYear d % 27 + 2) % 27) "")] else []) ∧
      (simulate_nakshatra_data d).transitions.length ≤ 2 ∧
      ((∃ t ∈ (simulate_nakshatra_data d).transitions, t.time = "10:30") ↔
        dayOfYear d % 3 = 0) ∧
      ((∃ t ∈ (simulate_nakshatra_data d).transitions, t.time = "14:15") ↔
        dayOfYear d % 4 = 0) := by
  intro d
  refine ⟨simulate_transitions_eq d, ?_, ?_, ?_⟩ <;>
    rw [simulate_transitions_eq d] <;>
    by_cases h3 : dayOfYear d % 3 = 0 <;> by_cases h4 : dayOfYear d % 4 = 0 <;>
    simp [h3, h4]

/-- C6: the simulated index is the day of year modulo 27, hence in [0,27);
the current label is the table entry at that index in the fixed list of 27
names; and the moon phase is Waxing before day 15 of each mod-30 cycle. -/
theorem simulate_index_label_phase :
    ∀ d : Date,
      (simulate_nakshatra_data d).nakshatra_index = dayOfYear d % 27 ∧
      (simulate_nakshatra_data d).nakshatra_index < 27 ∧
      nakshatras.length = 27 ∧
      (simulate_nakshatra_data d).current_nakshatra =
        nakshatras.getD (simulate_nakshatra_data d).nakshatra_index "" ∧
      (simulate_nakshatra_data d).moon_phase =
        (if dayOfYear d % 30 < 15 then "Waxing" else "Waning") := by
  intro d
  exact ⟨rfl, Nat.mod_lt _ (by norm_num), rfl, rfl, rfl⟩

/-- C7: with at least 2 records, the key times are in bijection with the
signal's transitions, in order, each carrying the transition's time, a
"from → to" period label, and an impact decided once from the signal's base
index modulo 3. -/
theorem key_times_mirror_transitions :
    ∀ (closes : List ℚ) (nd : NakshatraData), 2 ≤ closes.length →
      (generate_prediction (some closes) nd).key_times =
        nd.transitions.map (fun t =>
          KeyTime.mk t.time
            (if nd.nakshatra_index % 3 = 0 then "Volatile" else "Moderate")
            (t.fromLabel ++ " → " ++ t.toLabel)) ∧
      (generate_prediction (some closes) nd).key_times.length =
        nd.transitions.length := by
  intro closes nd h
  have hk : (generate_prediction (some closes) nd).key_times = key_times_of nd := by
    rw [generate_prediction_of_two_le closes nd h]; rfl
  constructor
  · rw [hk]
    unfold key_times_of
    by_cases h3 : nd.nakshatra_index % 3 = 0 <;> simp [h3]
  · rw [hk]
    unfold key_times_of
    simp

/-- C7 witness: the key-time list of a concrete two-transition signal. -/
theorem key_times_mirror_transitions_witness :
    (generate_prediction (some [1, 1]) (simulate_nakshatra_data (Date.mk 2023 1 12))).key_times =
      (simulate_nakshatra_data (Date.mk 2023 1 12)).transitions.map (fun t =>
        KeyTime.mk t.time
          (if (simulate_nakshatra_data (Date.mk 2023 1 12)).nakshatra_index % 3 = 0 then
            "Volatile" else "Moderate")
          (t.fromLabel ++ " → " ++ t.toLabel)) :=
  (key_times_mirror_transitions [1, 1] (simulate_nakshatra_data (Date.mk 2023 1 12))
    (by decide)).1

/-- C8: the simulation is deterministic — equal dates yield equal signals,
with no other input — and total: every date yields a well-formed signal. -/
theorem simulate_pure_total_deterministic :
    (∀ d₁ d₂ : Date, d₁ = d₂ →
      simulate_nakshatra_data d₁ = simulate_nakshatra_data d₂) ∧
    (∀ d : Date, valid_signal (simulate_nakshatra_data d)) := by
  constructor
  · intro d₁ d₂ h
    rw [h]
  · intro d
    refine ⟨Nat.mod_lt _ (by norm_num),
      getD_mem_nakshatras _ (Nat.mod_lt _ (by norm_num)), ?_, ?_, ?_⟩
    · rw [simulate_transitions_eq d]
      by_cases h3 : dayOfYear d % 3 = 0 <;> by_cases h4 : dayOfYear d % 4 = 0 <;>
        simp [h3, h4]
    · intro t ht
      rw [simulate_transitions_eq d] at ht
      rcases List.mem_append.mp ht with hm | hm
      · by_cases h3 : dayOfYear d % 3 = 0
        · rw [if_pos h3] at hm
          rw [List.mem_singleton] at hm
          subst hm
          exact ⟨getD_mem_nakshatras _ (Nat.mod_lt _ (by norm_num)),
            getD_mem_nakshatras _ (Nat.mod_lt _ (by norm_num))⟩
        · rw [if_neg h3] at hm
          exact absurd hm (List.not_mem_nil t)
      · by_cases h4 : dayOfYear d % 4 = 0
        · rw [if_pos h4] at hm
          rw [List.mem_singleton] at hm
          subst hm
          exact ⟨getD_mem_nakshatras _ (Nat.mod_lt _ (by norm_num)),
            getD_mem_nakshatras _ (Nat.mod_lt _ (by norm_num))⟩
        · rw [if_neg h4] at hm
          exact absurd hm (List.not_mem_nil t)
    · show (if dayOfYear d % 30 < 15 then "Waxing" else "Waning") = "Waxing" ∨
        (if dayOfYear d % 30 < 15 then "Waxing" else "Waning") = "Waning"
      by_cases h : dayOfYear d % 30 < 15
      · exact Or.inl (if_pos h)
      · exact Or.inr (if_neg h)

/-- C8 witness: determinism and validity instantiated at a concrete date. -/
theorem simulate_pure_total_deterministic_witness :
    simulate_nakshatra_data (Date.mk 2024 3 15) =
      simulate_nakshatra_data (Date.mk 2024 3 15) :=
  simulate_pure_total_deterministic.1 (Date.mk 2024 3 15) (Date.mk 2024 3 15) rfl

/-- C10: with at least 2 records, a signal containing a 10:30 transition
forces every key time to carry a Volatile impact (3 divides 27), so a
Moderate impact can only arise when the sole transition is the 14:15 one. -/
theorem moderate_only_on_sole_1415 :
    ∀ (d : Date) (closes : List ℚ), 2 ≤ closes.length →
      (((simulate_nakshatra_data d).transitions.any (fun t => t.time == "10:30")) = true →
        ((generate_prediction (some closes) (simulate_nakshatra_data d)).key_times.all
          (fun kt => kt.expected_impact == "Volatile")) = true) ∧
      (∀ kt ∈ (generate_prediction (some closes) (simulate_nakshatra_data d)).key_times,
        kt.expected_impact = "Moderate" →
        ∃ t, (simulate_nakshatra_data d).transitions = [t] ∧ t.time = "14:15") := by
  intro d closes hlen
  have hk : (generate_prediction (some closes) (simulate_nakshatra_data d)).key_times =
      key_times_of (simulate_nakshatra_data d) := by
    rw [generate_prediction_of_two_le _ _ hlen]; rfl
  have hidx := index_mod_three d
  constructor
  · intro hany
    have h3 : dayOfYear d % 3 = 0 := by
      by_contra h3
      rw [simulate_transitions_eq d, if_neg h3] at hany
      by_cases h4 : dayOfYear d % 4 = 0
      · rw [if_pos h4] at hany
        simp at hany
      · rw [if_neg h4] at hany
        simp at hany
    rw [hk]
    unfold key_times_of
    rw [List.all_eq_true]
    intro kt hkt
    rw [List.mem_map] at hkt
    obtain ⟨t, _, rfl⟩ := hkt
    simp [hidx.trans h3]
  · intro kt hkt hmod
    rw [hk] at hkt
    unfold key_times_of at hkt
    rw [List.mem_map] at hkt
    obtain ⟨t, ht, rfl⟩ := hkt
    by_cases h3 : (simulate_nakshatra_data d).nakshatra_index % 3 = 0
    · exact absurd hmod (by simp [h3])
    · have hd3 : ¬ dayOfYear d % 3 = 0 := fun hc => h3 (by rw [hidx]; exact hc)
      rw [simulate_transitions_eq d, if_neg hd3] at ht
      by_cases h4 : dayOfYear d % 4 = 0
      · exact ⟨Transition.mk "14:15" (nakshatras.getD ((dayOfYear d % 27 + 1) % 27) "")
          (nakshatras.getD ((dayOfYear d % 27 + 2) % 27) ""),
          by rw [simulate_transitions_eq d, if_neg hd3, if_pos h4]; rfl, rfl⟩
      · rw [if_neg h4] at ht
        exact absurd ht (by simp)

/-- C10 witness: on a day-of-year divisible by 3 every key time of the
prediction is Volatile. -/
theorem moderate_only_on_sole_1415_witness :
    ((generate_prediction (some [1, 1]) (simulate_nakshatra_data (Date.mk 2023 1 12))).key_times.all
      (fun kt => kt.expected_impact == "Volatile")) = true :=
  (moderate_only_on_sole_1415 (Date.mk 2023 1 12) [1, 1] (by decide)).1 (by decide)

end NakshatraApp
